import Mathlib

/-!
Verification of the volume-profile dashboard (`profile.py`).

The program fetches OKX option-instrument data and an index price,
normalizes the instrument records into a dataframe with columns
(instrument_name, strike, option_type, volume_24h, expiration_date),
and renders per-expiration call/put volume bars against an index-price
reference line.

This file shallowly embeds the data path of `profile.py`:
* raw field values and `pd.to_numeric(..., errors="coerce")`;
* the per-record normalization block (lines 52-61);
* the control flow of `get_okx_data` (lines 20-100) with the two HTTP
  calls represented by oracle results, exceptions by failure
  constructors, and the `st.error`/`st.warning` calls by message kinds;
* the main-script display flow (lines 125-156) and the plotting block
  (lines 159-207) as a view-building function.

Prices, strikes and volumes are modelled as rationals; expiration
timestamps as natural numbers of milliseconds since the Unix epoch.
-/

namespace VolumeProfile

/-- A raw JSON field value as the OKX API delivers it: either a string
that parses as a number (carried as the parsed rational) or a string
that does not parse numerically. -/
inductive RawVal where
| num (q : ℚ)
| text (s : String)
deriving DecidableEq, Repr

/-- Model of `pd.to_numeric(x, errors="coerce")` on one field: a
numeric string yields its value, anything else coerces to NaN,
modelled as `none`. -/
def toNumeric : RawVal → Option ℚ
| .num q => some q
| .text _ => none

/-- The `option_type` column only ever holds the two pandas string
values `"call"` and `"put"` (profile.py line 57); we model them as an
enumeration. -/
inductive Side where
| call
| put
deriving DecidableEq, Repr

/-- One element of the `data` array of the OKX `market/instruments`
response, restricted to the fields `profile.py` reads: `instId`,
`stk`, `optType`, `vol24h`, `expTime`. `expTimeMs` is the epoch
timestamp in milliseconds (`pd.to_datetime(..., unit="ms")`,
line 59). -/
structure RawRecord where
  instId : String
  stk : RawVal
  optType : String
  vol24h : RawVal
  expTimeMs : ℕ
deriving DecidableEq, Repr

/-- One row of the normalized dataframe after line 61 of `profile.py`:
columns `instrument_name`, `strike`, `option_type`, `volume_24h`,
`expiration_date` (kept as the raw millisecond timestamp; calendar-day
normalization happens later, line 130/153). -/
structure Quote where
  instrument_name : String
  strike : ℚ
  option_type : Side
  volume_24h : ℚ
  expirationMs : ℕ
deriving DecidableEq, Repr

/-- Row-wise normalization of one raw record, from `profile.py` lines
55-61:
* `instrument_name = instId` (line 55);
* `strike = to_numeric(stk, coerce)` (line 56), and
  `dropna(subset=["strike"])` (line 61) drops the row when it is NaN;
* `option_type = "call" if optType == "C" else "put"` (line 57);
* `volume_24h = to_numeric(vol24h, coerce).fillna(0)` (line 58);
* `expiration_date = to_datetime(expTime, unit="ms")` (line 59). -/
def parseRecord (r : RawRecord) : Option Quote :=
  match toNumeric r.stk with
  | none => none
  | some s =>
      some { instrument_name := r.instId
             strike := s
             option_type := if r.optType = "C" then Side.call else Side.put
             volume_24h := (toNumeric r.vol24h).getD 0
             expirationMs := r.expTimeMs }

/-- The normalization block of `get_okx_data` (lines 52-61): all column
transformations are row-wise, and `dropna(subset=["strike"])` keeps
exactly the rows whose strike parsed, so the block is a `filterMap`
of `parseRecord` over the raw `data` array. -/
def normalizeInstruments (rs : List RawRecord) : List Quote :=
  rs.filterMap parseRecord

/-- One element of the `data` array of the OKX `market/index-tickers`
response, restricted to the one field read: `idxPx` (line 82). -/
structure IdxTicker where
  idxPx : RawVal
deriving DecidableEq, Repr

/-- Outcome of one HTTP GET in `get_okx_data`: success with parsed JSON
`data`, or one of the exception classes the function catches —
`requests.exceptions.Timeout`, `requests.exceptions.HTTPError` (raised
by `raise_for_status`), and other `requests.exceptions.RequestException`
network errors (lines 86-97). -/
inductive CallResult (α : Type) where
| ok (data : α)
| timeout
| httpError (status : ℕ)
| networkError
deriving DecidableEq, Repr

/-- Kind of user-facing message emitted through Streamlit: `st.error`,
`st.warning` or `st.info`. The debug `st.write` calls are display noise
and are not modelled. -/
inductive MsgKind where
| error
| warning
| info
deriving DecidableEq, Repr

/-- Result of `get_okx_data`: the messages it emitted, the normalized
options dataframe, and the optional index price. The Python function
returns the pair `(df, index_price)`; the messages are its Streamlit
side effects. -/
structure FetchResult where
  msgs : List MsgKind
  df : List Quote
  index_price : Option ℚ
deriving DecidableEq, Repr

/-- Control flow of `get_okx_data` (profile.py lines 20-100), with the
two HTTP calls supplied as oracle outcomes.

The whole body is one `try` block. In order:
* the instruments call; `Timeout`/`HTTPError`/`RequestException` jump
  to the matching `except` handler, which emits `st.error` (the
  `HTTPError` handler also emits `st.info`, line 92) and returns
  `(pd.DataFrame(), None)`;
* empty `data` emits `st.warning` and returns `(pd.DataFrame(), None)`
  (lines 48-50);
* the normalization block builds `df` (lines 52-61);
* the index-price call; any exception again unwinds to the handlers,
  discarding `df` and returning `(pd.DataFrame(), None)`;
* with index data present, `float(idxPx)` (line 82) raises on a
  non-numeric value, caught by the bare `except Exception`
  (lines 98-100) which returns `(pd.DataFrame(), None)`; with an empty
  index `data` array, `index_price` stays `None` and `df` is returned. -/
def get_okx_data (instrResp : CallResult (List RawRecord))
    (indexResp : CallResult (List IdxTicker)) : FetchResult :=
  match instrResp with
  | .timeout => { msgs := [MsgKind.error], df := [], index_price := none }
  | .httpError _ => { msgs := [MsgKind.error, MsgKind.info], df := [], index_price := none }
  | .networkError => { msgs := [MsgKind.error], df := [], index_price := none }
  | .ok instrData =>
      if instrData = [] then
        { msgs := [MsgKind.warning], df := [], index_price := none }
      else
        let df := normalizeInstruments instrData
        match indexResp with
        | .timeout => { msgs := [MsgKind.error], df := [], index_price := none }
        | .httpError _ => { msgs := [MsgKind.error, MsgKind.info], df := [], index_price := none }
        | .networkError => { msgs := [MsgKind.error], df := [], index_price := none }
        | .ok idxData =>
            match idxData with
            | [] => { msgs := [], df := df, index_price := none }
            | t :: _ =>
                match t.idxPx with
                | .num p => { msgs := [], df := df, index_price := some p }
                | .text _ => { msgs := [MsgKind.error], df := [], index_price := none }

/-- Model of `.dt.normalize()` on an epoch-millisecond timestamp
(profile.py lines 130 and 153): dropping the time-of-day component,
i.e. flooring to the calendar day. We represent a calendar date by its
day number since the Unix epoch. -/
def epochDayOfMs (ms : ℕ) : ℕ :=
  ms / 86400000

/-- Days since the Unix epoch of the civil date `y-m-d` (proleptic
Gregorian), used only to state which calendar date a timestamp falls
on. Standard era-based conversion. -/
def dateToEpochDay (y m d : ℤ) : ℤ :=
  let yAdj : ℤ := if m ≤ 2 then y - 1 else y
  let era : ℤ := (if 0 ≤ yAdj then yAdj else yAdj - 399) / 400
  let yoe : ℤ := yAdj - era * 400
  let mp : ℤ := if 2 < m then m - 3 else m + 9
  let doy : ℤ := (153 * mp + 2) / 5 + d - 1
  let doe : ℤ := yoe * 365 + yoe / 4 - yoe / 100 + doy
  era * 146097 + doe - 719468

/-- The rows of `filtered_df` (profile.py line 153): quotes whose
normalized expiration date equals the selected expiration day. -/
def filteredQuotes (quotes : List Quote) (expDay : ℕ) : List Quote :=
  quotes.filter (fun q => epochDayOfMs q.expirationMs = expDay)

/-- The comparison `sort_values("strike")` sorts by: the strike column
alone; no other column takes part in the comparison. -/
def strikeLE (a b : Quote) : Prop :=
  a.strike ≤ b.strike

instance : DecidableRel strikeLE :=
  fun a b => inferInstanceAs (Decidable (a.strike ≤ b.strike))

instance : IsTotal Quote strikeLE :=
  ⟨fun a b => le_total a.strike b.strike⟩

instance : IsTrans Quote strikeLE :=
  ⟨fun _ _ _ => le_trans⟩

/-- Model of `DataFrame.sort_values("strike")` (profile.py lines 186
and 198): sorting by the strike column alone. For inputs of fewer than
16 rows the numpy quicksort this invokes degenerates to an insertion
sort, which keeps equal keys in input order, so a stable insertion
sort keyed only on strike is the faithful model there. -/
def sortByStrike (l : List Quote) : List Quote :=
  l.insertionSort strikeLE

/-- The `calls_df` dataframe (profile.py line 186): call rows of
`filtered_df`, sorted by strike. -/
def calls_df (quotes : List Quote) (expDay : ℕ) : List Quote :=
  sortByStrike ((filteredQuotes quotes expDay).filter
    (fun q => q.option_type = Side.call))

/-- The `puts_df` dataframe (profile.py line 198): put rows of
`filtered_df`, sorted by strike. -/
def puts_df (quotes : List Quote) (expDay : ℕ) : List Quote :=
  sortByStrike ((filteredQuotes quotes expDay).filter
    (fun q => q.option_type = Side.put))

/-- The `filtered_df["strike"].min()` reduction (profile.py line 166);
the empty case never occurs where it is used. -/
def minStrike : List Quote → ℚ
| [] => 0
| q :: qs => qs.foldl (fun a b => min a b.strike) q.strike

/-- The `filtered_df["strike"].max()` reduction (profile.py line 167);
the empty case never occurs where it is used. -/
def maxStrike : List Quote → ℚ
| [] => 0
| q :: qs => qs.foldl (fun a b => max a b.strike) q.strike

/-- The chart-ready structure the plotting block assembles: the
index-price reference-line x-domain (absent when no reference line is
drawn) and the sorted call/put rows. -/
structure View where
  domain : Option (ℚ × ℚ)
  calls : List Quote
  puts : List Quote
deriving DecidableEq, Repr

/-- The plotting block for a selected expiration (profile.py lines
153-207), given the fetched quotes, the fetched `index_price`, and the
selected expiration day.

* `filtered_df` empty → `st.warning`, no figure is built at all
  (lines 155-156): modelled as `none`.
* Otherwise a figure is built. The reference line is added only under
  `if index_price:` (line 162) — Python truthiness, so `None` and
  `0.0` both skip it. Its x-domain is `[strike.min(), strike.max()]`
  when `filtered_df` is non-empty, else the
  `[index_price*0.8, index_price*1.2]` fallback (lines 165-170);
  inside this branch `filtered_df` is always non-empty, the fallback
  is kept for faithfulness.
* `calls_df` and `puts_df` are the call/put rows sorted by strike. -/
def build_view (quotes : List Quote) (index_price : Option ℚ)
    (expDay : ℕ) : Option View :=
  let f := filteredQuotes quotes expDay
  if f = [] then none
  else
    some { domain :=
             match index_price with
             | some p =>
                 if p ≠ 0 then
                   if f ≠ [] then some (minStrike f, maxStrike f)
                   else some (p * (4/5), p * (6/5))
                 else none
             | none => none
           calls := calls_df quotes expDay
           puts := puts_df quotes expDay }

/-- Terminal display state of one run of the main script
(profile.py lines 125-237). -/
inductive DisplayState where
| noDataInfo
| noFutureExpStop
| noExpDataWarning
| chart (v : View)
deriving DecidableEq, Repr

/-- The main-script flow after `get_okx_data` returns (profile.py
lines 123-237), for one run:

* `options_df.empty` → `st.info("No data available ...")` (lines
  125-126);
* otherwise the unique normalized expiration days are computed and
  past days dropped (lines 130-134); none left → `st.stop()`
  (lines 136-138);
* the user-selected expiration day (`selectedExp`, a sidebar choice
  among the future days) filters the dataframe; an empty filter shows
  a warning (lines 155-156), else the chart is built. -/
def mainDisplay (r : FetchResult) (todayDay : ℕ) (selectedExp : ℕ) :
    DisplayState :=
  if r.df = [] then DisplayState.noDataInfo
  else
    let futureDays := ((r.df.map (fun q => epochDayOfMs q.expirationMs)).filter
      (fun d => todayDay ≤ d))
    if futureDays = [] then DisplayState.noFutureExpStop
    else
      match build_view r.df r.index_price selectedExp with
      | none => DisplayState.noExpDataWarning
      | some v => DisplayState.chart v

/-- Models the fetch path the script actually runs (profile.py line
123): `get_okx_data` is called directly on every script run — the
`st.cache_data(ttl=300)` decorator (line 12) and the cached,
spinner-wrapped call (lines 119-121) are both commented out, so each
invocation for the fixed (exchange, currency) key performs its own
network fetch. `invocations` lists the times (seconds) of the runs;
the result is the number of network fetches issued. -/
def scriptFetchCount (invocations : List ℕ) : ℕ :=
  invocations.length

/-- One step of the TTL cache: given (time of the cached fetch if any,
fetches so far) and the current invocation time, a cached entry younger
than `ttl` is a hit, otherwise a fetch replaces the entry. -/
def cachedStep (ttl : ℕ) (acc : Option ℕ × ℕ) (t : ℕ) : Option ℕ × ℕ :=
  match acc.1 with
  | some t0 => if t - t0 < ttl then (some t0, acc.2) else (some t, acc.2 + 1)
  | none => (some t, acc.2 + 1)

/-- Modelled from the spec: the `st.cache_data(ttl=300)` memoization of
`get_or_fetch` that section 4.3 describes (single entry per key, entry
younger than `ttl` served without a network call, expired or absent
entry refetched). This code is present only as comments in
`profile.py` (lines 12 and 119-121); it is modelled here to state what
the claim expects. `times` lists the invocation times (seconds,
ascending) for one fixed key; the result is the number of network
fetches issued. -/
def cachedFetchCount (ttl : ℕ) (times : List ℕ) : ℕ :=
  (times.foldl (cachedStep ttl) (none, 0)).2

/-! Concrete fixtures used by the theorems below. -/

/-- The raw OKX record of the specification's section-8 scenario:
`{instId:"BTC-USD-240329-70000-C", stk:"70000", optType:"C",
vol24h:"12", expTime:"1711699200000"}`. -/
def rec6 : RawRecord :=
  { instId := "BTC-USD-240329-70000-C", stk := RawVal.num 70000,
    optType := "C", vol24h := RawVal.num 12, expTimeMs := 1711699200000 }

/-- The quote the normalization block produces from `rec6`. -/
def q6 : Quote :=
  { instrument_name := "BTC-USD-240329-70000-C", strike := 70000,
    option_type := Side.call, volume_24h := 12,
    expirationMs := 1711699200000 }

/-- A raw record whose strike field parses to a negative number. -/
def recNegStrike : RawRecord :=
  { instId := "BTC-USD-240329-NEG-C", stk := RawVal.num (-5),
    optType := "C", vol24h := RawVal.num 1, expTimeMs := 1711699200000 }

/-- The quote the normalization block produces from `recNegStrike`. -/
def qNegStrike : Quote :=
  { instrument_name := "BTC-USD-240329-NEG-C", strike := -5,
    option_type := Side.call, volume_24h := 1,
    expirationMs := 1711699200000 }

/-- A raw record whose side token `"XX"` is none of the recognized
tokens (`C`, `P`, `call`, `put`). -/
def recSideXX : RawRecord :=
  { instId := "BTC-USD-240329-100-XX", stk := RawVal.num 100,
    optType := "XX", vol24h := RawVal.num 1, expTimeMs := 1711699200000 }

/-- The quote the normalization block produces from `recSideXX`. -/
def qSideXX : Quote :=
  { instrument_name := "BTC-USD-240329-100-XX", strike := 100,
    option_type := Side.put, volume_24h := 1,
    expirationMs := 1711699200000 }

/-- A raw record whose strike field does not parse numerically. -/
def recBadStk : RawRecord :=
  { instId := "BAD-STK", stk := RawVal.text "oops", optType := "C",
    vol24h := RawVal.num 1, expTimeMs := 0 }

/-- A raw record whose volume field does not parse numerically. -/
def recBadVol : RawRecord :=
  { instId := "BAD-VOL", stk := RawVal.num 100, optType := "C",
    vol24h := RawVal.text "oops", expTimeMs := 0 }

/-- A call quote with strike 100 whose instrument id starts with `Z`. -/
def zq : Quote :=
  { instrument_name := "Z-100-C", strike := 100,
    option_type := Side.call, volume_24h := 1, expirationMs := 0 }

/-- A call quote with strike 100 whose instrument id starts with `A`. -/
def aq : Quote :=
  { instrument_name := "A-100-C", strike := 100,
    option_type := Side.call, volume_24h := 2, expirationMs := 0 }

/-! Theorems. -/

/-- C1, counterexample: with the instrument call succeeding on one
parseable record (which normalizes to one quote) and the index-price
call timing out, `get_okx_data` returns the empty dataframe and an
error message — the already-fetched instrument quotes are discarded
and an overall failure is surfaced, contrary to the claim that the
quotes are returned with `index_price = None`. -/
theorem C1_counterexample :
    get_okx_data (CallResult.ok [rec6]) CallResult.timeout =
      { msgs := [MsgKind.error], df := [], index_price := none } ∧
    normalizeInstruments [rec6] = [q6] ∧
    [q6] ≠ ([] : List Quote) := by
  decide

/-- C1, amended: the whole body of `get_okx_data` is a single `try`
block, so when the instrument call succeeds with data but the
index-price call fails (timeout, HTTP error, or network error), the
exception unwinds past the already-built dataframe and the function
returns the empty dataframe with `index_price = None` and an error
message — the instrument data is discarded. The index price is absent
with the quotes retained only when the index call itself succeeds but
returns an empty `data` array. -/
theorem C1_index_failure_discards_quotes (instrData : List RawRecord)
    (hne : instrData ≠ [])
    (indexResp : CallResult (List IdxTicker))
    (hfail : indexResp = CallResult.timeout ∨
      (∃ s, indexResp = CallResult.httpError s) ∨
      indexResp = CallResult.networkError) :
    (get_okx_data (CallResult.ok instrData) indexResp).df = [] ∧
    (get_okx_data (CallResult.ok instrData) indexResp).index_price = none ∧
    MsgKind.error ∈ (get_okx_data (CallResult.ok instrData) indexResp).msgs ∧
    get_okx_data (CallResult.ok instrData) (CallResult.ok []) =
      { msgs := [], df := normalizeInstruments instrData,
        index_price := none } := by
  rcases hfail with h | ⟨s, h⟩ | h <;> subst h <;>
    simp [get_okx_data, hne]

/-- C1, witness for the amended theorem at a concrete input: one
parseable instrument record, index call failing with a network
error. -/
theorem C1_index_failure_witness :
    (get_okx_data (CallResult.ok [rec6]) CallResult.networkError).df = [] ∧
    (get_okx_data (CallResult.ok [rec6]) CallResult.networkError).index_price
      = none ∧
    MsgKind.error ∈
      (get_okx_data (CallResult.ok [rec6]) CallResult.networkError).msgs ∧
    get_okx_data (CallResult.ok [rec6]) (CallResult.ok []) =
      { msgs := [], df := normalizeInstruments [rec6],
        index_price := none } :=
  C1_index_failure_discards_quotes [rec6] (by decide)
    CallResult.networkError (Or.inr (Or.inr rfl))

/-- C2: evaluation of the code at the failing input. Two script runs
at t = 0s and t = 10s — both inside one 300-second TTL window — issue
two network fetches under the script's actual fetch path (the
`st.cache_data(ttl=300)` decorator is commented out), whereas the TTL
cache the claim describes would issue exactly one. -/
theorem C2_cache_disabled_double_fetch :
    scriptFetchCount [0, 10] = 2 ∧ cachedFetchCount 300 [0, 10] = 1 := by
  decide

/-- C6: normalizing the single raw OKX record
`{instId:"BTC-USD-240329-70000-C", stk:"70000", optType:"C",
vol24h:"12", expTime:"1711699200000"}` yields exactly one quote with
instrument name `BTC-USD-240329-70000-C`, strike 70000, side CALL,
volume 12, and an expiration timestamp whose calendar day (time of
day discarded) is 2024-03-29. -/
theorem C6_okx_scenario :
    normalizeInstruments [rec6] = [q6] ∧
    q6.instrument_name = "BTC-USD-240329-70000-C" ∧
    q6.strike = 70000 ∧
    q6.option_type = Side.call ∧
    q6.volume_24h = 12 ∧
    (epochDayOfMs q6.expirationMs : ℤ) = dateToEpochDay 2024 3 29 := by
  decide

/-- C3, counterexample: the payload consisting of the single record
`recNegStrike`, whose strike field parses to `-5`, is accepted by the
normalization block, and the surviving quote has strike `-5` — the
claimed invariant `strike > 0` does not hold on the code, which never
checks the sign of a parsed strike. -/
theorem C3_counterexample :
    normalizeInstruments [recNegStrike] = [qNegStrike] ∧
    ¬ (0 < qNegStrike.strike) := by
  decide

/-- C3, amended: every quote surviving normalization has a side in
{CALL, PUT} and comes from a raw record whose strike field parsed
successfully to exactly the quote's strike (never null or defaulted),
with the volume equal to the parsed source value, or 0 when the source
value failed numeric parsing. Positivity of the strike and
nonnegativity of the volume are not enforced: negative parsed source
values survive (see the counterexample). -/
theorem C3_surviving_quote_shape (rs : List RawRecord) (q : Quote)
    (hq : q ∈ normalizeInstruments rs) :
    (q.option_type = Side.call ∨ q.option_type = Side.put) ∧
    ∃ r ∈ rs, toNumeric r.stk = some q.strike ∧
      (toNumeric r.vol24h = some q.volume_24h ∨
        (toNumeric r.vol24h = none ∧ q.volume_24h = 0)) := by
  rcases List.mem_filterMap.mp hq with ⟨r, hr, hpr⟩
  refine ⟨by cases q.option_type <;> simp, r, hr, ?_⟩
  unfold parseRecord at hpr
  rcases hstk : toNumeric r.stk with _ | s
  · rw [hstk] at hpr
    cases hpr
  · rw [hstk] at hpr
    cases hpr
    refine ⟨rfl, ?_⟩
    rcases hvol : toNumeric r.vol24h with _ | v
    · exact Or.inr ⟨rfl, by simp [hvol]⟩
    · exact Or.inl (by simp [hvol])

/-- C3, witness for the amended theorem at the concrete negative-strike
record. -/
theorem C3_witness :
    (qNegStrike.option_type = Side.call ∨
      qNegStrike.option_type = Side.put) ∧
    ∃ r ∈ [recNegStrike], toNumeric r.stk = some qNegStrike.strike ∧
      (toNumeric r.vol24h = some qNegStrike.volume_24h ∨
        (toNumeric r.vol24h = none ∧ qNegStrike.volume_24h = 0)) :=
  C3_surviving_quote_shape [recNegStrike] qNegStrike (by decide)

/-- C4: a record whose volume field fails numeric parsing is kept with
volume 0 (and the parsed strike), while a record whose strike field
fails numeric parsing is dropped from the snapshot entirely, the rest
of the records being normalized unchanged. -/
theorem C4_volume_defaults_strike_drops (r : RawRecord)
    (rs : List RawRecord) :
    (toNumeric r.stk = none →
      normalizeInstruments (r :: rs) = normalizeInstruments rs) ∧
    (∀ s : ℚ, toNumeric r.stk = some s → toNumeric r.vol24h = none →
      normalizeInstruments (r :: rs) =
        { instrument_name := r.instId, strike := s,
          option_type := if r.optType = "C" then Side.call else Side.put,
          volume_24h := 0, expirationMs := r.expTimeMs } ::
          normalizeInstruments rs) := by
  constructor
  · intro h
    simp [normalizeInstruments, List.filterMap_cons, parseRecord, h]
  · intro s hs hv
    simp [normalizeInstruments, List.filterMap_cons, parseRecord, hs, hv]

/-- C4, witness: the unparseable-strike record is dropped and the
unparseable-volume record is kept with volume 0. -/
theorem C4_witness :
    normalizeInstruments [recBadStk] = normalizeInstruments [] ∧
    normalizeInstruments [recBadVol] =
      { instrument_name := recBadVol.instId, strike := 100,
        option_type := if recBadVol.optType = "C" then Side.call
          else Side.put,
        volume_24h := 0, expirationMs := recBadVol.expTimeMs } ::
        normalizeInstruments [] :=
  ⟨(C4_volume_defaults_strike_drops recBadStk []).1 rfl,
    (C4_volume_defaults_strike_drops recBadVol []).2 100 rfl rfl⟩

/-- C5, counterexample: the record `recSideXX` carries the side token
`"XX"`, which is none of the recognized tokens (`C`, `P`, `call`,
`put`), yet the record is not skipped: it survives normalization with
side PUT, because line 57 of `profile.py` maps every token other than
`"C"` to `"put"`. -/
theorem C5_counterexample :
    recSideXX.optType ≠ "C" ∧ recSideXX.optType ≠ "P" ∧
    recSideXX.optType ≠ "call" ∧ recSideXX.optType ≠ "put" ∧
    normalizeInstruments [recSideXX] = [qSideXX] ∧
    qSideXX.option_type = Side.put := by
  decide

/-- C5, amended: the side mapping produces exactly two values — the
token `"C"` maps to CALL and every other token, recognized or not,
maps to PUT — and no record is ever dropped on account of its side
token: whenever the strike parses, the record survives. -/
theorem C5_side_mapping_total (r : RawRecord) (s : ℚ)
    (hs : toNumeric r.stk = some s) :
    ∃ q : Quote, parseRecord r = some q ∧
      (q.option_type = Side.call ↔ r.optType = "C") ∧
      (q.option_type = Side.call ∨ q.option_type = Side.put) := by
  unfold parseRecord
  rw [hs]
  refine ⟨_, rfl, ?_, ?_⟩
  · by_cases h : r.optType = "C" <;> simp [h]
  · by_cases h : r.optType = "C" <;> simp [h]

/-- C5, witness for the amended theorem at the unrecognized-token
record. -/
theorem C5_witness :
    ∃ q : Quote, parseRecord recSideXX = some q ∧
      (q.option_type = Side.call ↔ recSideXX.optType = "C") ∧
      (q.option_type = Side.call ∨ q.option_type = Side.put) :=
  C5_side_mapping_total recSideXX 100 rfl

/-- The running minimum `foldl min` is a lower bound of its seed and of
every scanned strike. -/
theorem foldlMin_isLB (qs : List Quote) (a : ℚ) :
    qs.foldl (fun x b => min x b.strike) a ≤ a ∧
    ∀ b ∈ qs, qs.foldl (fun x b => min x b.strike) a ≤ b.strike := by
  induction qs generalizing a with
  | nil => simp
  | cons c cs ih =>
      refine ⟨le_trans (ih (min a c.strike)).1 (min_le_left _ _), ?_⟩
      intro b hb
      rcases List.mem_cons.mp hb with h | h
      · subst h
        exact le_trans (ih (min a b.strike)).1 (min_le_right _ _)
      · exact (ih (min a c.strike)).2 b h

/-- The running minimum `foldl min` is attained: it equals its seed or
some scanned strike. -/
theorem foldlMin_attained (qs : List Quote) (a : ℚ) :
    qs.foldl (fun x b => min x b.strike) a = a ∨
    ∃ b ∈ qs, qs.foldl (fun x b => min x b.strike) a = b.strike := by
  induction qs generalizing a with
  | nil => exact Or.inl rfl
  | cons c cs ih =>
      rcases ih (min a c.strike) with h | ⟨b, hb, h⟩
      · rcases min_choice a c.strike with he | he
        · exact Or.inl (by rw [List.foldl_cons, h, he])
        · exact Or.inr ⟨c, List.mem_cons_self c cs,
            by rw [List.foldl_cons, h, he]⟩
      · exact Or.inr ⟨b, List.mem_cons_of_mem c hb,
          by rw [List.foldl_cons, h]⟩

/-- The running maximum `foldl max` is an upper bound of its seed and
of every scanned strike. -/
theorem foldlMax_isUB (qs : List Quote) (a : ℚ) :
    a ≤ qs.foldl (fun x b => max x b.strike) a ∧
    ∀ b ∈ qs, b.strike ≤ qs.foldl (fun x b => max x b.strike) a := by
  induction qs generalizing a with
  | nil => simp
  | cons c cs ih =>
      refine ⟨le_trans (le_max_left _ _) (ih (max a c.strike)).1, ?_⟩
      intro b hb
      rcases List.mem_cons.mp hb with h | h
      · subst h
        exact le_trans (le_max_right _ _) (ih (max a b.strike)).1
      · exact (ih (max a c.strike)).2 b h

/-- The running maximum `foldl max` is attained: it equals its seed or
some scanned strike. -/
theorem foldlMax_attained (qs : List Quote) (a : ℚ) :
    qs.foldl (fun x b => max x b.strike) a = a ∨
    ∃ b ∈ qs, qs.foldl (fun x b => max x b.strike) a = b.strike := by
  induction qs generalizing a with
  | nil => exact Or.inl rfl
  | cons c cs ih =>
      rcases ih (max a c.strike) with h | ⟨b, hb, h⟩
      · rcases max_choice a c.strike with he | he
        · exact Or.inl (by rw [List.foldl_cons, h, he])
        · exact Or.inr ⟨c, List.mem_cons_self c cs,
            by rw [List.foldl_cons, h, he]⟩
      · exact Or.inr ⟨b, List.mem_cons_of_mem c hb,
          by rw [List.foldl_cons, h]⟩

/-- On a non-empty dataframe, `strike.min()` is the least strike and is
attained by some row. -/
theorem minStrike_spec (f : List Quote) (hf : f ≠ []) :
    (∀ q ∈ f, minStrike f ≤ q.strike) ∧
    ∃ q ∈ f, minStrike f = q.strike := by
  cases f with
  | nil => exact absurd rfl hf
  | cons c cs =>
      constructor
      · intro q hq
        rcases List.mem_cons.mp hq with h | h
        · subst h
          exact (foldlMin_isLB cs q.strike).1
        · exact (foldlMin_isLB cs c.strike).2 q h
      · rcases foldlMin_attained cs c.strike with h | ⟨b, hb, h⟩
        · exact ⟨c, List.mem_cons_self c cs, h⟩
        · exact ⟨b, List.mem_cons_of_mem c hb, h⟩

/-- On a non-empty dataframe, `strike.max()` is the greatest strike and
is attained by some row. -/
theorem maxStrike_spec (f : List Quote) (hf : f ≠ []) :
    (∀ q ∈ f, q.strike ≤ maxStrike f) ∧
    ∃ q ∈ f, maxStrike f = q.strike := by
  cases f with
  | nil => exact absurd rfl hf
  | cons c cs =>
      constructor
      · intro q hq
        rcases List.mem_cons.mp hq with h | h
        · subst h
          exact (foldlMax_isUB cs q.strike).1
        · exact (foldlMax_isUB cs c.strike).2 q h
      · rcases foldlMax_attained cs c.strike with h | ⟨b, hb, h⟩
        · exact ⟨c, List.mem_cons_self c cs, h⟩
        · exact ⟨b, List.mem_cons_of_mem c hb, h⟩

/-- C7, counterexample: the two call quotes `zq` and `aq` have equal
strikes and distinct instrument ids, yet the two orders in which they
can appear in the snapshot produce two different `calls_df` orders —
the order of an equal-strike tie is the input order, so it is not a
deterministic function of `instrument_id` as the claim states
(`sort_values("strike")` compares strikes only). -/
theorem C7_counterexample :
    calls_df [zq, aq] 0 = [zq, aq] ∧
    calls_df [aq, zq] 0 = [aq, zq] ∧
    zq.strike = aq.strike ∧
    zq.instrument_name ≠ aq.instrument_name := by
  decide

/-- C7, amended: for any snapshot and selected expiration, the quotes
at that expiration are partitioned into a CALL sequence and a PUT
sequence, each sorted ascending (non-strictly) by strike; equal-strike
ties keep the input order rather than being broken by instrument_id. -/
theorem C7_partition_sorted (quotes : List Quote) (expDay : ℕ) :
    List.Sorted strikeLE (calls_df quotes expDay) ∧
    List.Sorted strikeLE (puts_df quotes expDay) ∧
    (∀ q ∈ calls_df quotes expDay,
      q.option_type = Side.call ∧ q ∈ filteredQuotes quotes expDay) ∧
    (∀ q ∈ puts_df quotes expDay,
      q.option_type = Side.put ∧ q ∈ filteredQuotes quotes expDay) := by
  refine ⟨List.sorted_insertionSort strikeLE _,
    List.sorted_insertionSort strikeLE _, ?_, ?_⟩
  · intro q hq
    have hq2 := (List.perm_insertionSort strikeLE
      ((filteredQuotes quotes expDay).filter
        (fun q => q.option_type = Side.call))).subset hq
    have hm := List.mem_filter.mp hq2
    exact ⟨by simpa using hm.2, hm.1⟩
  · intro q hq
    have hq2 := (List.perm_insertionSort strikeLE
      ((filteredQuotes quotes expDay).filter
        (fun q => q.option_type = Side.put))).subset hq
    have hm := List.mem_filter.mp hq2
    exact ⟨by simpa using hm.2, hm.1⟩

/-- C7, witness for the amended theorem at a concrete two-quote
snapshot. -/
theorem C7_witness :
    zq.option_type = Side.call ∧ zq ∈ filteredQuotes [zq, aq] 0 :=
  (C7_partition_sorted [zq, aq] 0).2.2.1 zq (by decide)

/-- C8, counterexample: the snapshot holding only `q6` (expiration day
19811) has no quotes at the selected expiration day 7, and an index
price of 100 is available, yet the plotting path builds no view at all
— the claim's fallback domain `[index_price * 0.8, index_price * 1.2]`
is never produced, because the fallback branch sits inside the
non-empty-dataframe arm of the code (lines 155-170) and is
unreachable. -/
theorem C8_counterexample :
    filteredQuotes [q6] 7 = [] ∧
    build_view [q6] (some 100) 7 = none := by
  decide

/-- C8, amended: when quotes exist at the selected expiration and the
index price is present and nonzero, the reference-line domain is
`[min strike, max strike]` over the quotes at that expiration — a
bound attained on both ends; when no quotes exist at the selected
expiration, the plotting path renders nothing at all (no fallback
domain from the index price). -/
theorem C8_reference_domain (quotes : List Quote) (expDay : ℕ) (p : ℚ) :
    (filteredQuotes quotes expDay = [] →
      build_view quotes (some p) expDay = none) ∧
    (filteredQuotes quotes expDay ≠ [] → p ≠ 0 →
      build_view quotes (some p) expDay =
        some { domain := some (minStrike (filteredQuotes quotes expDay),
                               maxStrike (filteredQuotes quotes expDay)),
               calls := calls_df quotes expDay,
               puts := puts_df quotes expDay } ∧
      (∀ q ∈ filteredQuotes quotes expDay,
        minStrike (filteredQuotes quotes expDay) ≤ q.strike ∧
        q.strike ≤ maxStrike (filteredQuotes quotes expDay)) ∧
      (∃ q ∈ filteredQuotes quotes expDay,
        minStrike (filteredQuotes quotes expDay) = q.strike) ∧
      (∃ q ∈ filteredQuotes quotes expDay,
        maxStrike (filteredQuotes quotes expDay) = q.strike)) := by
  constructor
  · intro h
    simp [build_view, h]
  · intro hne hp
    refine ⟨by simp [build_view, hne, hp], ?_, ?_, ?_⟩
    · intro q hq
      exact ⟨(minStrike_spec _ hne).1 q hq, (maxStrike_spec _ hne).1 q hq⟩
    · exact (minStrike_spec _ hne).2
    · exact (maxStrike_spec _ hne).2

/-- C8, witness for the amended theorem: the snapshot holding only
`q6`, viewed at its own expiration day with index price 100. -/
theorem C8_witness :
    build_view [q6] (some 100) 19811 =
      some { domain := some (minStrike (filteredQuotes [q6] 19811),
                             maxStrike (filteredQuotes [q6] 19811)),
             calls := calls_df [q6] 19811,
             puts := puts_df [q6] 19811 } ∧
    (∀ q ∈ filteredQuotes [q6] 19811,
      minStrike (filteredQuotes [q6] 19811) ≤ q.strike ∧
      q.strike ≤ maxStrike (filteredQuotes [q6] 19811)) ∧
    (∃ q ∈ filteredQuotes [q6] 19811,
      minStrike (filteredQuotes [q6] 19811) = q.strike) ∧
    (∃ q ∈ filteredQuotes [q6] 19811,
      maxStrike (filteredQuotes [q6] 19811) = q.strike) :=
  (C8_reference_domain [q6] 19811 100).2 (by decide) (by decide)

/-- C9: an instrument call that succeeds with an empty `data` array is
surfaced as a warning — not an error — with an empty dataframe and no
index price (the index call is never reached), and the main script
then shows the informational no-data state without attempting any
aggregation; `build_view` on the empty snapshot likewise returns
gracefully. -/
theorem C9_empty_success (indexResp : CallResult (List IdxTicker))
    (todayDay selectedExp : ℕ) :
    get_okx_data (CallResult.ok []) indexResp =
      { msgs := [MsgKind.warning], df := [], index_price := none } ∧
    mainDisplay (get_okx_data (CallResult.ok []) indexResp)
      todayDay selectedExp = DisplayState.noDataInfo ∧
    build_view ([] : List Quote) none selectedExp = none := by
  have h : get_okx_data (CallResult.ok []) indexResp =
      { msgs := [MsgKind.warning], df := [], index_price := none } := by
    simp [get_okx_data]
  refine ⟨h, ?_, rfl⟩
  rw [h]
  simp [mainDisplay]

/-- C10: `get_okx_data` converts every exception it models — timeout,
HTTP error, network error on either call, and the parse failure of
`float(idxPx)` — into a normal return (the function is total, nothing
propagates), and every such error path returns exactly the pair
(empty dataframe, no index price): whenever an error message was
emitted, the result is never partially populated. -/
theorem C10_error_paths_empty (instrResp : CallResult (List RawRecord))
    (indexResp : CallResult (List IdxTicker))
    (h : MsgKind.error ∈ (get_okx_data instrResp indexResp).msgs) :
    (get_okx_data instrResp indexResp).df = [] ∧
    (get_okx_data instrResp indexResp).index_price = none := by
  cases instrResp with
  | ok data =>
      by_cases hd : data = []
      · simp [get_okx_data, hd] at h
      · cases indexResp with
        | ok idx =>
            cases idx with
            | nil => simp [get_okx_data, hd] at h
            | cons t ts =>
                cases htp : t.idxPx with
                | num p => simp [get_okx_data, hd, htp] at h
                | text s => simp [get_okx_data, hd, htp]
        | timeout => simp [get_okx_data, hd]
        | httpError s => simp [get_okx_data, hd]
        | networkError => simp [get_okx_data, hd]
  | timeout => simp [get_okx_data]
  | httpError s => simp [get_okx_data]
  | networkError => simp [get_okx_data]

/-- C10, witness: the timeout of the instrument call returns exactly
the empty pair. -/
theorem C10_witness :
    (get_okx_data CallResult.timeout
      (CallResult.ok ([] : List IdxTicker))).df = [] ∧
    (get_okx_data CallResult.timeout
      (CallResult.ok ([] : List IdxTicker))).index_price = none :=
  C10_error_paths_empty CallResult.timeout
    (CallResult.ok ([] : List IdxTicker)) (by decide)

end VolumeProfile
